import Mathlib

/-!
Doxygen search-index files of the AOS SDK documentation.

The three files `search/all_10.js`, `search/all_2.js` and `search/all_c.js` each
assign one array literal to the variable `searchData`.  The literals are embedded
below as values of `JsValue` (strings, numbers and arrays, the only JavaScript
values the files contain), element by element and in source order.
-/

/-- JavaScript values occurring in the search-index files. -/
inductive JsValue where
  | str (s : String)
  | num (n : Nat)
  | arr (items : List JsValue)

/-- The array literal assigned to `searchData` in `search/all_10.js`. -/
def all_10.searchData : JsValue :=
  .arr [
    .arr [.str "rf_20switch_20driver", .arr [.str "RF switch driver", .arr [.str "../group__aos__rf__switch.html", .num 1, .str ""]]],
    .arr [.str "r0", .arr [.str "r0", .arr [.str "../structaos__error__reg__info__t.html#ad6e2ca734dec787d95a0df3e92352667", .num 1, .str "aos_error_reg_info_t"]]],
    .arr [.str "r1", .arr [.str "r1", .arr [.str "../structaos__error__reg__info__t.html#a2434b69ba768fbed8c8373684dfc13e7", .num 1, .str "aos_error_reg_info_t"]]],
    .arr [.str "r12", .arr [.str "r12", .arr [.str "../structaos__error__reg__info__t.html#ace999666e91322a65f18221f71cce438", .num 1, .str "aos_error_reg_info_t"]]],
    .arr [.str "r2", .arr [.str "r2", .arr [.str "../structaos__error__reg__info__t.html#aa02debb523159d384a78ebb64f17afa5", .num 1, .str "aos_error_reg_info_t"]]],
    .arr [.str "r3", .arr [.str "r3", .arr [.str "../structaos__error__reg__info__t.html#a17a645820901bac42d3ee6ffb66c8dd9", .num 1, .str "aos_error_reg_info_t"]]],
    .arr [.str "raw", .arr [.str "raw", .arr [.str "../structaos__gnss__request__info__t.html#a15f157b8d83d41c842be56832f634624", .num 1, .str "aos_gnss_request_info_t::raw()"], .arr [.str "../structaos__gnss__event__info__t.html#a0eb003eb6791d8f5e9d0cec4a2feabe3", .num 1, .str "aos_gnss_event_info_t::raw()"]]],
    .arr [.str "read", .arr [.str "read", .arr [.str "../structaos__i2c__master__t.html#a7633500ce86c6a84f98260f2d2f18a8e", .num 1, .str "aos_i2c_master_t::read()"], .arr [.str "../structaos__uart__driver__t.html#a099920395539e589164eb81ef7619352", .num 1, .str "aos_uart_driver_t::read()"]]],
    .arr [.str "recall_5fbuffer", .arr [.str "recall_buffer", .arr [.str "../structcli__t.html#a9019f13b51233eafff95f636dbce41bc", .num 1, .str "cli_t"]]],
    .arr [.str "recall_5fcount", .arr [.str "recall_count", .arr [.str "../structcli__t.html#acb75621a3c8f89ae322832fbb5a2e731", .num 1, .str "cli_t"]]],
    .arr [.str "recall_5findex", .arr [.str "recall_index", .arr [.str "../structcli__t.html#a6a48112dd06abdd6671b6632f9f566eb", .num 1, .str "cli_t"]]],
    .arr [.str "reg_5finfo", .arr [.str "reg_info", .arr [.str "../structaos__error__into__t.html#a4bd4421b46371376dd593b1447f2549e", .num 1, .str "aos_error_into_t"]]],
    .arr [.str "repeat_5fdelay", .arr [.str "repeat_delay", .arr [.str "../structsrv__ble__scan__param__t.html#a2db17eadf534af1e456fcf8f4d347d8a", .num 1, .str "srv_ble_scan_param_t"]]],
    .arr [.str "report", .arr [.str "report", .arr [.str "../structsrv__ble__scan__param__t.html#a1fb4c1d739a707f80b61bb973a88572f", .num 1, .str "srv_ble_scan_param_t"]]],
    .arr [.str "report_5ftype", .arr [.str "report_type", .arr [.str "../structsrv__ble__scan__report__t.html#a48b1b7fd5b69870f9a7fe85608f4eb30", .num 1, .str "srv_ble_scan_report_t"]]],
    .arr [.str "req", .arr [.str "req", .arr [.str "../structcli__ioctl__t.html#a3a4ccb43d028b0cf61569528307f4d27", .num 1, .str "cli_ioctl_t::req()"], .arr [.str "../structcli__parser__ioctl__t.html#a741778991115b3ebd51dd3f94c00ed5b", .num 1, .str "cli_parser_ioctl_t::req()"], .arr [.str "../structaos__gnss__ioctl__t.html#a911daf5d3f1caf5cb7e6bba2e349c3a2", .num 1, .str "aos_gnss_ioctl_t::req()"]]],
    .arr [.str "req_5finfo", .arr [.str "req_info", .arr [.str "../structaos__gnss__event__info__t.html#a3b7149367bb369036190c39239262741", .num 1, .str "aos_gnss_event_info_t"]]],
    .arr [.str "request", .arr [.str "request", .arr [.str "../structaos__i2c__ioctl__t.html#a42e198fc08d712e05722d347530e6025", .num 1, .str "aos_i2c_ioctl_t"]]],
    .arr [.str "reserved", .arr [.str "reserved", .arr [.str "../structsrv__ble__scan__eddystone__info__t.html#a64109bb3963ce4be740e1c808b11b9d2", .num 1, .str "srv_ble_scan_eddystone_info_t"]]],
    .arr [.str "rf_5fswitch_5fowner_5fble", .arr [.str "RF_SWITCH_OWNER_BLE", .arr [.str "../group__aos__rf__switch.html#ga75b00ef6a27ce4cab0dd09d39cf47e63", .num 1, .str "aos_rf_switch.h"]]],
    .arr [.str "rf_5fswitch_5fowner_5fgnss_5flr", .arr [.str "RF_SWITCH_OWNER_GNSS_LR", .arr [.str "../group__aos__rf__switch.html#ga49657f71593bcca51515b98698d679b3", .num 1, .str "aos_rf_switch.h"]]],
    .arr [.str "rf_5fswitch_5fowner_5fgnss_5fmt", .arr [.str "RF_SWITCH_OWNER_GNSS_MT", .arr [.str "../group__aos__rf__switch.html#gac1b1bbd479e8e8f52c764e122fcc2cd6", .num 1, .str "aos_rf_switch.h"]]],
    .arr [.str "rf_5fswitch_5fowner_5fwifi", .arr [.str "RF_SWITCH_OWNER_WIFI", .arr [.str "../group__aos__rf__switch.html#ga86175dd475d1b1a4cbe4bf6fa76b619e", .num 1, .str "aos_rf_switch.h"]]],
    .arr [.str "rpi", .arr [.str "rpi", .arr [.str "../structsrv__ble__beaconing__exposure__data__t.html#a0d6466ffa4e9afbeb26adf7e5acc19b0", .num 1, .str "srv_ble_beaconing_exposure_data_t::rpi()"], .arr [.str "../structsrv__ble__scan__exposure__info__t.html#aaa9bd5a07ea7fe692272b89d00121f00", .num 1, .str "srv_ble_scan_exposure_info_t::rpi()"]]],
    .arr [.str "rssi", .arr [.str "rssi", .arr [.str "../structsrv__ble__scan__result__entry__t.html#ae61697e327eca207375ad18c3001917e", .num 1, .str "srv_ble_scan_result_entry_t::rssi()"], .arr [.str "../structsrv__ble__scan__short__beacon__info__t.html#a0f0e491b77db5094ce96008d811643b1", .num 1, .str "srv_ble_scan_short_beacon_info_t::rssi()"], .arr [.str "../structsrv__ble__scan__long__beacon__info__t.html#a8342f530c2b3fd7ac21f5f68399a11ab", .num 1, .str "srv_ble_scan_long_beacon_info_t::rssi()"]]],
    .arr [.str "rssi_5fthreshold", .arr [.str "rssi_threshold", .arr [.str "../structsrv__ble__scan__param__t.html#a414b64f19121079b0703f581f86ee53f", .num 1, .str "srv_ble_scan_param_t"]]],
    .arr [.str "rx_5f1m", .arr [.str "RX_1M", .arr [.str "../group__app__conf.html#ga96293183fb379b9f106b74f9d0c31d18", .num 1, .str "app_conf.h"]]],
    .arr [.str "rx_5f2m", .arr [.str "RX_2M", .arr [.str "../group__app__conf.html#ga6a1fc0f6d0e5a1977156f295c5014c7e", .num 1, .str "app_conf.h"]]],
    .arr [.str "rx_5f2m_5fpreferred", .arr [.str "RX_2M_PREFERRED", .arr [.str "../group__app__conf.html#ga80bcd58f34d9677fcb175259f4fe98aa", .num 1, .str "app_conf.h"]]],
    .arr [.str "rx_5fbuffer", .arr [.str "rx_buffer", .arr [.str "../structaos__uart__config__t.html#aa92db53b3ab172e72ba49f3aae417c3a", .num 1, .str "aos_uart_config_t"]]],
    .arr [.str "rx_5fbuffer_5fsize", .arr [.str "rx_buffer_size", .arr [.str "../structaos__uart__config__t.html#a03b68a7498eda47a932634afce441c1d", .num 1, .str "aos_uart_config_t"]]],
    .arr [.str "rx_5fbytes", .arr [.str "rx_bytes", .arr [.str "../structaos__uart__stats__t.html#a0a07d6ff770dd82ef79dcccf2921c692", .num 1, .str "aos_uart_stats_t"]]],
    .arr [.str "rx_5ffifo_5ffull", .arr [.str "rx_fifo_full", .arr [.str "../structaos__uart__stats__t.html#ada9caebe753d3eaaa6e434a0e0c9dc2e", .num 1, .str "aos_uart_stats_t"]]]
  ]

/-- The array literal assigned to `searchData` in `search/all_2.js`. -/
def all_2.searchData : JsValue :=
  .arr [
    .arr [.str "ble_20core_20common_20defines", .arr [.str "BLE core common defines", .arr [.str "../group__aos__ble__common.html", .num 1, .str ""]]],
    .arr [.str "ble_20middleware_20configuration", .arr [.str "BLE Middleware configuration", .arr [.str "../group__aos__ble__conf.html", .num 1, .str ""]]],
    .arr [.str "ble_20core", .arr [.str "BLE core", .arr [.str "../group__aos__ble__core.html", .num 1, .str ""]]],
    .arr [.str "ble_20core_20service", .arr [.str "BLE core service", .arr [.str "../group__aos__ble__services.html", .num 1, .str ""]]],
    .arr [.str "ble_20control_20transport_20access", .arr [.str "BLE Control transport access", .arr [.str "../group__aos__ble__shci.html", .num 1, .str ""]]],
    .arr [.str "bas_5fchar_5fvalue_5finit", .arr [.str "bas_char_value_init", .arr [.str "../group__aos__ble__services.html#ga226a9d511820b787fc5fa5ab0133e84d", .num 1, .str "aos_ble_services.h"]]],
    .arr [.str "base", .arr [.str "base", .arr [.str "../structnmea__parse__msg__t.html#a3244e40a26b2e9fe73d1f72649249144", .num 1, .str "nmea_parse_msg_t"]]],
    .arr [.str "battery_5fservice", .arr [.str "BATTERY_SERVICE", .arr [.str "../group__aos__ble__common.html#gga4caf8d8f829279fba122163d961608a4a2c7f44c023c3d88666a56b10d1b38ad6", .num 1, .str "aos_ble_common.h"]]],
    .arr [.str "beacon_5fid", .arr [.str "beacon_id", .arr [.str "../structsrv__ble__beaconing__altbeacon__data__t.html#a47400d4749516a590fa6cd3f2017e91c", .num 1, .str "srv_ble_beaconing_altbeacon_data_t::beacon_id()"], .arr [.str "../structsrv__ble__scan__altbeacon__info__t.html#a42f07a98bb04fdbd9c1ab29fe41ff03e", .num 1, .str "srv_ble_scan_altbeacon_info_t::beacon_id()"]]],
    .arr [.str "beacon_5fid_5ftype", .arr [.str "beacon_id_type", .arr [.str "../structsrv__ble__scan__param__report__t.html#a5ad2a53daef51b5539f06d4bcc652919", .num 1, .str "srv_ble_scan_param_report_t"]]],
    .arr [.str "bfar", .arr [.str "bfar", .arr [.str "../structaos__error__extra__info__t.html#a5754bfeb76cd84300fe7fa0062769394", .num 1, .str "aos_error_extra_info_t"]]],
    .arr [.str "binfo", .arr [.str "binfo", .arr [.str "../structsrv__ble__scan__result__entry__t.html#a19dba57ae733e3c4255d55004f6d075e", .num 1, .str "srv_ble_scan_result_entry_t"]]],
    .arr [.str "ble_5fappearance_5fgeneric_5fkeyring", .arr [.str "BLE_APPEARANCE_GENERIC_KEYRING", .arr [.str "../group__aos__ble__conf.html#ga7239b3bf480c0814172799d8b52ed478", .num 1, .str "aos_ble_conf.h"]]],
    .arr [.str "ble_5fcfg_5fbas_5flevel_5fnot_5fprop", .arr [.str "BLE_CFG_BAS_LEVEL_NOT_PROP", .arr [.str "../group__aos__ble__conf.html#ga8a091aeff297d2dbcc541a8c920cf99e", .num 1, .str "aos_ble_conf.h"]]],
    .arr [.str "ble_5fcfg_5fbas_5fpower_5fnot_5fprop", .arr [.str "BLE_CFG_BAS_POWER_NOT_PROP", .arr [.str "../group__aos__ble__conf.html#ga906fbc9661063fb017e12488998dfb2c", .num 1, .str "aos_ble_conf.h"]]],
    .arr [.str "ble_5fcfg_5fcentral", .arr [.str "BLE_CFG_CENTRAL", .arr [.str "../group__aos__ble__conf.html#ga6c006f54736a9ec7d46d356bf21f4231", .num 1, .str "aos_ble_conf.h"]]],
    .arr [.str "ble_5fcfg_5fclt_5fmax_5fnbr_5fcb", .arr [.str "BLE_CFG_CLT_MAX_NBR_CB", .arr [.str "../group__aos__ble__conf.html#ga76fe678aa1fc95633f7f6d98920cfde7", .num 1, .str "aos_ble_conf.h"]]],
    .arr [.str "ble_5fcfg_5fdis_5fdata_5flen_5fmax", .arr [.str "BLE_CFG_DIS_DATA_LEN_MAX", .arr [.str "../group__aos__ble__conf.html#ga9e54f672aae6cfc5a4586be9ac63a2f5", .num 1, .str "aos_ble_conf.h"]]],
    .arr [.str "ble_5fcfg_5fdis_5ffirmware_5frevision_5fstring", .arr [.str "BLE_CFG_DIS_FIRMWARE_REVISION_STRING", .arr [.str "../group__aos__ble__conf.html#ga514953bc6824bd5265b1781b1d2d8ada", .num 1, .str "aos_ble_conf.h"]]],
    .arr [.str "ble_5fcfg_5fdis_5ffirmware_5frevision_5fstring_5flen_5fmax", .arr [.str "BLE_CFG_DIS_FIRMWARE_REVISION_STRING_LEN_MAX", .arr [.str "../group__aos__ble__conf.html#ga4ba6029735f3e8893ead5600960f5a15", .num 1, .str "aos_ble_conf.h"]]],
    .arr [.str "ble_5fcfg_5fdis_5fhardware_5frevision_5fstring", .arr [.str "BLE_CFG_DIS_HARDWARE_REVISION_STRING", .arr [.str "../group__aos__ble__conf.html#gaa0b41fbe4a645db7ddd58913ea45bb25", .num 1, .str "aos_ble_conf.h"]]],
    .arr [.str "ble_5fcfg_5fdis_5fhardware_5frevision_5fstring_5flen_5fmax", .arr [.str "BLE_CFG_DIS_HARDWARE_REVISION_STRING_LEN_MAX", .arr [.str "../group__aos__ble__conf.html#ga48f9ea8df6d56ebaa913610aea5a12b8", .num 1, .str "aos_ble_conf.h"]]],
    .arr [.str "ble_5fcfg_5fdis_5fieee_5fcertification", .arr [.str "BLE_CFG_DIS_IEEE_CERTIFICATION", .arr [.str "../group__aos__ble__conf.html#gaa212ad2ce3fbe3a426f5d21a518b97d8", .num 1, .str "aos_ble_conf.h"]]],
    .arr [.str "ble_5fcfg_5fdis_5fieee_5fcertification_5flen_5fmax", .arr [.str "BLE_CFG_DIS_IEEE_CERTIFICATION_LEN_MAX", .arr [.str "../group__aos__ble__conf.html#gac99c2a83566c828c55ea843201a97bc2", .num 1, .str "aos_ble_conf.h"]]],
    .arr [.str "ble_5fcfg_5fdis_5fmanufacturer_5fname_5fstring", .arr [.str "BLE_CFG_DIS_MANUFACTURER_NAME_STRING", .arr [.str "../group__aos__ble__conf.html#ga9cbfa0d8e1dd95529c666144d71ee5c7", .num 1, .str "aos_ble_conf.h"]]],
    .arr [.str "ble_5fcfg_5fdis_5fmanufacturer_5fname_5fstring_5flen_5fmax", .arr [.str "BLE_CFG_DIS_MANUFACTURER_NAME_STRING_LEN_MAX", .arr [.str "../group__aos__ble__conf.html#gab87271082500cab1c797db54ad0aac6d", .num 1, .str "aos_ble_conf.h"]]],
    .arr [.str "ble_5fcfg_5fdis_5fmodel_5fnumber_5fstring", .arr [.str "BLE_CFG_DIS_MODEL_NUMBER_STRING", .arr [.str "../group__aos__ble__conf.html#gac512fe578d6c3f930c01fafb6f328d0e", .num 1, .str "aos_ble_conf.h"]]],
    .arr [.str "ble_5fcfg_5fdis_5fmodel_5fnumber_5fstring_5flen_5fmax", .arr [.str "BLE_CFG_DIS_MODEL_NUMBER_STRING_LEN_MAX", .arr [.str "../group__aos__ble__conf.html#gac78199840d271317c6f850e532aab536", .num 1, .str "aos_ble_conf.h"]]],
    .arr [.str "ble_5fcfg_5fdis_5fpnp_5fid", .arr [.str "BLE_CFG_DIS_PNP_ID", .arr [.str "../group__aos__ble__conf.html#gac6cff9bc37c79a41bf121ff553cb6412", .num 1, .str "aos_ble_conf.h"]]],
    .arr [.str "ble_5fcfg_5fdis_5fpnp_5fid_5flen_5fmax", .arr [.str "BLE_CFG_DIS_PNP_ID_LEN_MAX", .arr [.str "../group__aos__ble__conf.html#gabbabb5ff8e629cf4dfcc31eef65a39f0", .num 1, .str "aos_ble_conf.h"]]],
    .arr [.str "ble_5fcfg_5fdis_5fserial_5fnumber_5fstring", .arr [.str "BLE_CFG_DIS_SERIAL_NUMBER_STRING", .arr [.str "../group__aos__ble__conf.html#gac4820ef0b355ab5aa4068f0f829beb55", .num 1, .str "aos_ble_conf.h"]]],
    .arr [.str "ble_5fcfg_5fdis_5fserial_5fnumber_5fstring_5flen_5fmax", .arr [.str "BLE_CFG_DIS_SERIAL_NUMBER_STRING_LEN_MAX", .arr [.str "../group__aos__ble__conf.html#gaf1b4b740fb6bf315c923a254b68c4a33", .num 1, .str "aos_ble_conf.h"]]],
    .arr [.str "ble_5fcfg_5fdis_5fsoftware_5frevision_5fstring", .arr [.str "BLE_CFG_DIS_SOFTWARE_REVISION_STRING", .arr [.str "../group__aos__ble__conf.html#ga43bf2f818a113bfb7d149e85250984ff", .num 1, .str "aos_ble_conf.h"]]],
    .arr [.str "ble_5fcfg_5fdis_5fsoftware_5frevision_5fstring_5flen_5fmax", .arr [.str "BLE_CFG_DIS_SOFTWARE_REVISION_STRING_LEN_MAX", .arr [.str "../group__aos__ble__conf.html#ga4a8025063c3ff0c33ceb22786a3c84a6", .num 1, .str "aos_ble_conf.h"]]],
    .arr [.str "ble_5fcfg_5fdis_5fsystem_5fid", .arr [.str "BLE_CFG_DIS_SYSTEM_ID", .arr [.str "../group__aos__ble__conf.html#ga32146791f133df80d4182f2fe7af9932", .num 1, .str "aos_ble_conf.h"]]],
    .arr [.str "ble_5fcfg_5fdis_5fsystem_5fid_5flen_5fmax", .arr [.str "BLE_CFG_DIS_SYSTEM_ID_LEN_MAX", .arr [.str "../group__aos__ble__conf.html#gae7211544a3ef3ecdf8813f4976b8b82c", .num 1, .str "aos_ble_conf.h"]]],
    .arr [.str "ble_5fcfg_5fgap_5fappearance", .arr [.str "BLE_CFG_GAP_APPEARANCE", .arr [.str "../group__aos__ble__conf.html#gadfaca34e657840550a9fb53b9a07fca6", .num 1, .str "aos_ble_conf.h"]]],
    .arr [.str "ble_5fcfg_5fota_5freboot_5fchar", .arr [.str "BLE_CFG_OTA_REBOOT_CHAR", .arr [.str "../group__aos__ble__conf.html#ga649461ad58510fc7d5a4c429e35e3402", .num 1, .str "aos_ble_conf.h"]]],
    .arr [.str "ble_5fcfg_5fperipheral", .arr [.str "BLE_CFG_PERIPHERAL", .arr [.str "../group__aos__ble__conf.html#gacd8b79ed25929c0c8b0c288a934bbdaa", .num 1, .str "aos_ble_conf.h"]]],
    .arr [.str "ble_5fcfg_5fsvc_5fmax_5fnbr_5fcb", .arr [.str "BLE_CFG_SVC_MAX_NBR_CB", .arr [.str "../group__aos__ble__conf.html#gae021aa23027c250f0971a7e3870eb2fc", .num 1, .str "aos_ble_conf.h"]]],
    .arr [.str "ble_5fcfg_5funknown_5fappearance", .arr [.str "BLE_CFG_UNKNOWN_APPEARANCE", .arr [.str "../group__aos__ble__conf.html#gaf3be2fb64bfbe9bfc7da38485f32506e", .num 1, .str "aos_ble_conf.h"]]],
    .arr [.str "ble_5fchar_5finit_5fdata_5ft", .arr [.str "ble_char_init_data_t", .arr [.str "../structble__char__init__data__t.html", .num 1, .str ""]]],
    .arr [.str "ble_5fchar_5fupdate_5fdata_5ft", .arr [.str "ble_char_update_data_t", .arr [.str "../structble__char__update__data__t.html", .num 1, .str ""]]],
    .arr [.str "ble_5fcustom_5fsrvc_5finit_5fdata_5ft", .arr [.str "ble_custom_srvc_init_data_t", .arr [.str "../structble__custom__srvc__init__data__t.html", .num 1, .str ""]]],
    .arr [.str "ble_5fdbg_5fbas_5fen", .arr [.str "BLE_DBG_BAS_EN", .arr [.str "../group__app__conf.html#ga70b9c993c87eb9125e64ab3abf72922c", .num 1, .str "app_conf.h"]]],
    .arr [.str "ble_5fdbg_5fbas_5fmsg", .arr [.str "BLE_DBG_BAS_MSG", .arr [.str "../group__app__conf.html#ga49b90ceca8d2119d9974f3d851d2a82c", .num 1, .str "app_conf.h"]]],
    .arr [.str "ble_5fdbg_5fdis_5fen", .arr [.str "BLE_DBG_DIS_EN", .arr [.str "../group__app__conf.html#ga2f7e00fa883fb9cd4c4efd411ebba70a", .num 1, .str "app_conf.h"]]],
    .arr [.str "ble_5fdbg_5fdis_5fmsg", .arr [.str "BLE_DBG_DIS_MSG", .arr [.str "../group__app__conf.html#ga53165393a5000ce71667a09624a53c6e", .num 1, .str "app_conf.h"]]],
    .arr [.str "ble_5fdbg_5fess_5fen", .arr [.str "BLE_DBG_ESS_EN", .arr [.str "../group__app__conf.html#ga5030d97b311c0b15a1dbcdd1b5f23ece", .num 1, .str "app_conf.h"]]],
    .arr [.str "ble_5fdbg_5fess_5fmsg", .arr [.str "BLE_DBG_ESS_MSG", .arr [.str "../group__app__conf.html#ga29955f3b7966c7215dd4c9e4f95011a8", .num 1, .str "app_conf.h"]]],
    .arr [.str "ble_5fdbg_5fias_5fen", .arr [.str "BLE_DBG_IAS_EN", .arr [.str "../group__app__conf.html#gaeaa5293067022c2cfe7dcf92c7f30686", .num 1, .str "app_conf.h"]]],
    .arr [.str "ble_5fdbg_5fias_5fmsg", .arr [.str "BLE_DBG_IAS_MSG", .arr [.str "../group__app__conf.html#ga08919fcf71f9a44723393a37b09cedad", .num 1, .str "app_conf.h"]]],
    .arr [.str "ble_5fdbg_5flls_5fen", .arr [.str "BLE_DBG_LLS_EN", .arr [.str "../group__app__conf.html#gafb64144f770697069e17d18a1a803366", .num 1, .str "app_conf.h"]]],
    .arr [.str "ble_5fdbg_5flls_5fmsg", .arr [.str "BLE_DBG_LLS_MSG", .arr [.str "../group__app__conf.html#ga307d14d1711f0c42c310300f3336f9d5", .num 1, .str "app_conf.h"]]],
    .arr [.str "ble_5fdbg_5ftps_5fen", .arr [.str "BLE_DBG_TPS_EN", .arr [.str "../group__app__conf.html#ga77fdfb7afb7db9738ed9ae7186a0149b", .num 1, .str "app_conf.h"]]],
    .arr [.str "ble_5fdbg_5ftps_5fmsg", .arr [.str "BLE_DBG_TPS_MSG", .arr [.str "../group__app__conf.html#gaf057857273e2d125afe8cf8202cfe08d", .num 1, .str "app_conf.h"]]],
    .arr [.str "ble_5fdtm_5fparam_5ft", .arr [.str "ble_dtm_param_t", .arr [.str "../structble__dtm__param__t.html", .num 1, .str ""]]],
    .arr [.str "ble_5fdtm_5ftest_5fmode_5ft", .arr [.str "ble_dtm_test_mode_t", .arr [.str "../group__srv__ble__dtm.html#ga80bd2c39fb8164ebae3f01ff74db531a", .num 1, .str "srv_ble_dtm.h"]]],
    .arr [.str "ble_5fgap_5faddr_5flen", .arr [.str "BLE_GAP_ADDR_LEN", .arr [.str "../group__aos__ble__common.html#ga65d5382341d5a38c5a051ac7198ddb03", .num 1, .str "aos_ble_common.h"]]],
    .arr [.str "ble_5frole", .arr [.str "ble_role", .arr [.str "../structaos__ble__app__data__t.html#a24912c4860085d112caa8937ca6c1033", .num 1, .str "aos_ble_app_data_t"]]],
    .arr [.str "ble_5fscan_5ftype", .arr [.str "ble_scan_type", .arr [.str "../structsrv__ble__scan__param__t.html#a5acf70a32619e7cb9e50cbb25846e422", .num 1, .str "srv_ble_scan_param_t"]]],
    .arr [.str "ble_5fservice_5finit_5fdata_5ft", .arr [.str "ble_service_init_data_t", .arr [.str "../structble__service__init__data__t.html", .num 1, .str ""]]],
    .arr [.str "ble_5fsrvc_5fmask", .arr [.str "ble_srvc_mask", .arr [.str "../structaos__ble__app__data__t.html#aa50a5ff60008024f553d36b6ec321402", .num 1, .str "aos_ble_app_data_t"]]],
    .arr [.str "ble_5fversion", .arr [.str "ble_version", .arr [.str "../structaos__ble__app__data__t.html#ab560da789dbdf33792acad8ff5cff3ed", .num 1, .str "aos_ble_app_data_t"]]],
    .arr [.str "buf", .arr [.str "buf", .arr [.str "../structaos__fifo__t.html#a41670a9554ceeff1b4c4d4b4dec63766", .num 1, .str "aos_fifo_t"]]],
    .arr [.str "buffer", .arr [.str "buffer", .arr [.str "../structcli__t.html#a2c1e8f76be9ba987da6c25aeb7434885", .num 1, .str "cli_t"]]],
    .arr [.str "buffer_5ft", .arr [.str "buffer_t", .arr [.str "../structbuffer__t.html", .num 1, .str ""]]],
    .arr [.str "buflen", .arr [.str "buflen", .arr [.str "../structcli__t.html#a364feec6b2840e698c63ff3b78e58df8", .num 1, .str "cli_t"]]],
    .arr [.str "bufmax", .arr [.str "bufmax", .arr [.str "../structcli__t.html#a0e5e4f75affe0c3734aba9cb57b1d881", .num 1, .str "cli_t"]]],
    .arr [.str "bufpos", .arr [.str "bufpos", .arr [.str "../structcli__t.html#a88c5b44382dc9b2729c93f12d065aea9", .num 1, .str "cli_t"]]],
    .arr [.str "beaconing_20service", .arr [.str "Beaconing service", .arr [.str "../group__srv__ble__beaconing.html", .num 1, .str ""]]],
    .arr [.str "ble_20scan_20service", .arr [.str "BLE scan service", .arr [.str "../group__srv__ble__scan.html", .num 1, .str ""]]]
  ]

/-- The array literal assigned to `searchData` in `search/all_c.js`. -/
def all_c.searchData : JsValue :=
  .arr [
    .arr [.str "nmea_20parser", .arr [.str "NMEA parser", .arr [.str "../group__aos__nmea__parser.html", .num 1, .str ""]]],
    .arr [.str "name", .arr [.str "name", .arr [.str "../structnmea__dictionary__word__t.html#a5032e94e7c711907cd63cafed2074218", .num 1, .str "nmea_dictionary_word_t::name()"], .arr [.str "../structcli__cmd__option__t.html#a83f5757e015d55ff23b24bce73d9496a", .num 1, .str "cli_cmd_option_t::name()"]]],
    .arr [.str "name_5fspace", .arr [.str "name_space", .arr [.str "../structsrv__ble__beaconing__eddy__uuid__data__t.html#a6f83f6dec871fb75cc7cf79d172fd847", .num 1, .str "srv_ble_beaconing_eddy_uuid_data_t::name_space()"], .arr [.str "../structsrv__ble__scan__eddystone__info__t.html#aa5c4ad607b44c287f022d9b1b4853a27", .num 1, .str "srv_ble_scan_eddystone_info_t::name_space()"]]],
    .arr [.str "nb_5fbeacons", .arr [.str "nb_beacons", .arr [.str "../structsrv__ble__scan__param__report__t.html#a5540c1e3e39263565ded9f4cf7e2a3e0", .num 1, .str "srv_ble_scan_param_report_t"]]],
    .arr [.str "nb_5fsat", .arr [.str "nb_sat", .arr [.str "../structaos__gnss__track__data__t.html#abf6e52f4e1ea6e1429713c798581b5c8", .num 1, .str "aos_gnss_track_data_t::nb_sat()"], .arr [.str "../structaos__gnss__satellite__prn__report__t.html#a0654c4a41b01bc42402ab11573291ae1", .num 1, .str "aos_gnss_satellite_prn_report_t::nb_sat()"]]],
    .arr [.str "nmea_5fchange_5fcallback", .arr [.str "nmea_change_callback", .arr [.str "../group__aos__nmea__parser.html#ga1055e6f2ce80597a17216b5c3cecd050", .num 1, .str "aos_nmea_parser.h"]]],
    .arr [.str "nmea_5fclear_5fcounters", .arr [.str "nmea_clear_counters", .arr [.str "../group__aos__nmea__parser.html#gac88227dc46be2dbcc72e8292e48f691d", .num 1, .str "aos_nmea_parser.h"]]],
    .arr [.str "nmea_5fclose", .arr [.str "nmea_close", .arr [.str "../group__aos__nmea__parser.html#gad2c9ae194700000d1dbb3b92fc72fa15", .num 1, .str "aos_nmea_parser.h"]]],
    .arr [.str "nmea_5fdelayed_5frx_5fprocess", .arr [.str "nmea_delayed_rx_process", .arr [.str "../group__aos__nmea__parser.html#ga906213a5637f78b85488ffd5322d64a7", .num 1, .str "aos_nmea_parser.h"]]],
    .arr [.str "nmea_5fdictionary_5ft", .arr [.str "nmea_dictionary_t", .arr [.str "../structnmea__dictionary__t.html", .num 1, .str ""]]],
    .arr [.str "nmea_5fdictionary_5fword_5ft", .arr [.str "nmea_dictionary_word_t", .arr [.str "../structnmea__dictionary__word__t.html", .num 1, .str ""]]],
    .arr [.str "nmea_5fdump_5fraw", .arr [.str "nmea_dump_raw", .arr [.str "../group__aos__nmea__parser.html#gad377992e2546f59125cce829f7d1d220", .num 1, .str "aos_nmea_parser.h"]]],
    .arr [.str "nmea_5fextract_5ffloat_5fas_5fint", .arr [.str "nmea_extract_float_as_int", .arr [.str "../group__aos__nmea__parser.html#ga7737cb1df9548121615b20cb8950c5bd", .num 1, .str "aos_nmea_parser.h"]]],
    .arr [.str "nmea_5fextract_5fhex", .arr [.str "nmea_extract_hex", .arr [.str "../group__aos__nmea__parser.html#ga4e68b1f3abaf64e0ab6d147aa8ffcea5", .num 1, .str "aos_nmea_parser.h"]]],
    .arr [.str "nmea_5fextract_5fint", .arr [.str "nmea_extract_int", .arr [.str "../group__aos__nmea__parser.html#ga60c23447216a3f9fd65a74791316cb09", .num 1, .str "aos_nmea_parser.h"]]],
    .arr [.str "nmea_5fextract_5fuint", .arr [.str "nmea_extract_uint", .arr [.str "../group__aos__nmea__parser.html#ga27082770f1ec0880b3bb9dcc674e9e04", .num 1, .str "aos_nmea_parser.h"]]],
    .arr [.str "nmea_5fget_5fcoordinate", .arr [.str "nmea_get_coordinate", .arr [.str "../group__aos__nmea__parser.html#gaf18316dd0d37961e911b3bfb860fa415", .num 1, .str "aos_nmea_parser.h"]]],
    .arr [.str "nmea_5fget_5fcounters", .arr [.str "nmea_get_counters", .arr [.str "../group__aos__nmea__parser.html#ga0cdd759e78d28e8a54e64043262f6a34", .num 1, .str "aos_nmea_parser.h"]]],
    .arr [.str "nmea_5fget_5fdate", .arr [.str "nmea_get_date", .arr [.str "../group__aos__nmea__parser.html#ga010db1013aed414a7cf751bffbd59bf2", .num 1, .str "aos_nmea_parser.h"]]],
    .arr [.str "nmea_5fget_5ffield", .arr [.str "nmea_get_field", .arr [.str "../group__aos__nmea__parser.html#gac829f30ba367451cc52a4988d8121981", .num 1, .str "aos_nmea_parser.h"]]],
    .arr [.str "nmea_5fget_5ffloat_5fas_5fint", .arr [.str "nmea_get_float_as_int", .arr [.str "../group__aos__nmea__parser.html#gade39656799392acaac5a0b0bda2e2144", .num 1, .str "aos_nmea_parser.h"]]],
    .arr [.str "nmea_5fget_5fhex", .arr [.str "nmea_get_hex", .arr [.str "../group__aos__nmea__parser.html#ga156cb99ce678be8cc25c6d30fad50d11", .num 1, .str "aos_nmea_parser.h"]]],
    .arr [.str "nmea_5fget_5fmsg_5ftype", .arr [.str "nmea_get_msg_type", .arr [.str "../group__aos__nmea__parser.html#gaa25f87b3645d961bd5528d5f70ed5827", .num 1, .str "aos_nmea_parser.h"]]],
    .arr [.str "nmea_5fget_5ftime", .arr [.str "nmea_get_time", .arr [.str "../group__aos__nmea__parser.html#ga3b802875d7741383af641279b7873f9b", .num 1, .str "aos_nmea_parser.h"]]],
    .arr [.str "nmea_5fget_5fuint32", .arr [.str "nmea_get_uint32", .arr [.str "../group__aos__nmea__parser.html#gabdfe378b4edf3959be6938aa9f2dd995", .num 1, .str "aos_nmea_parser.h"]]],
    .arr [.str "nmea_5fget_5fxdop", .arr [.str "nmea_get_xdop", .arr [.str "../group__aos__nmea__parser.html#ga5d0127e59249a1a532ab295c15ec19ce", .num 1, .str "aos_nmea_parser.h"]]],
    .arr [.str "nmea_5fmax_5fmsg_5flen", .arr [.str "NMEA_MAX_MSG_LEN", .arr [.str "../group__gnss__common.html#ga018c9627e649ba321ff796d1e7ee4e8c", .num 1, .str "aos_gnss_common.h"]]],
    .arr [.str "nmea_5fmax_5fnb_5ffield", .arr [.str "NMEA_MAX_NB_FIELD", .arr [.str "../group__gnss__common.html#ga69195c297769948ae6eb653a7e4aa6fc", .num 1, .str "aos_gnss_common.h"]]],
    .arr [.str "nmea_5fmax_5fsat_5ffor_5ffix", .arr [.str "NMEA_MAX_SAT_FOR_FIX", .arr [.str "../group__aos__nmea__parser.html#gab7b828a27ac559ad00527f7fd7e8cc71", .num 1, .str "aos_nmea_parser.h"]]],
    .arr [.str "nmea_5fmsg_5ftype_5ft", .arr [.str "nmea_msg_type_t", .arr [.str "../group__aos__nmea__parser.html#ga88d38de8a4cd82c9e76777ad92882e2b", .num 1, .str "aos_nmea_parser.h"]]],
    .arr [.str "nmea_5fopen", .arr [.str "nmea_open", .arr [.str "../group__aos__nmea__parser.html#ga5df6143732a4667ade4285f1ddcd808f", .num 1, .str "aos_nmea_parser.h"]]],
    .arr [.str "nmea_5fparse_5fmsg_5ft", .arr [.str "nmea_parse_msg_t", .arr [.str "../structnmea__parse__msg__t.html", .num 1, .str ""]]],
    .arr [.str "nmea_5fparsing_5fack_5fcmd_5fok_5faction_5fok", .arr [.str "nmea_parsing_ack_cmd_ok_action_ok", .arr [.str "../group__aos__nmea__parser.html#gga7c569df8093efb3d3445f178fd2907c3ae4cecd482528646bd4bc607bb428c5b7", .num 1, .str "aos_nmea_parser.h"]]],
    .arr [.str "nmea_5fparsing_5fack_5fcmd_5fok_5fno_5faction", .arr [.str "nmea_parsing_ack_cmd_ok_no_action", .arr [.str "../group__aos__nmea__parser.html#gga7c569df8093efb3d3445f178fd2907c3a96a1ceb189839bd55a7b3fd60667e10c", .num 1, .str "aos_nmea_parser.h"]]],
    .arr [.str "nmea_5fparsing_5fcb_5fparam_5fack_5ft", .arr [.str "nmea_parsing_cb_param_ack_t", .arr [.str "../structnmea__parsing__cb__param__ack__t.html", .num 1, .str ""]]],
    .arr [.str "nmea_5fparsing_5fcb_5fparam_5ft", .arr [.str "nmea_parsing_cb_param_t", .arr [.str "../structnmea__parsing__cb__param__t.html", .num 1, .str ""]]],
    .arr [.str "nmea_5fparsing_5fcb_5ft", .arr [.str "nmea_parsing_cb_t", .arr [.str "../group__aos__nmea__parser.html#gabd17b0cba5e9e0e4ac3ac5fa54c9980f", .num 1, .str "aos_nmea_parser.h"]]],
    .arr [.str "nmea_5fparsing_5fres_5fdiscard", .arr [.str "nmea_parsing_res_discard", .arr [.str "../group__aos__nmea__parser.html#gga7c569df8093efb3d3445f178fd2907c3aa21c4a87919b9355c157a8deacba256f", .num 1, .str "aos_nmea_parser.h"]]],
    .arr [.str "nmea_5fparsing_5fres_5ferror", .arr [.str "nmea_parsing_res_error", .arr [.str "../group__aos__nmea__parser.html#gga7c569df8093efb3d3445f178fd2907c3ade3f905f713f60c49298e59c689b9495", .num 1, .str "aos_nmea_parser.h"]]],
    .arr [.str "nmea_5fparsing_5fres_5fnot_5fpopulated", .arr [.str "nmea_parsing_res_not_populated", .arr [.str "../group__aos__nmea__parser.html#gga7c569df8093efb3d3445f178fd2907c3a59dda01437ddb1e2d01837fe582a62da", .num 1, .str "aos_nmea_parser.h"]]],
    .arr [.str "nmea_5fparsing_5fres_5fsuccess", .arr [.str "nmea_parsing_res_success", .arr [.str "../group__aos__nmea__parser.html#gga7c569df8093efb3d3445f178fd2907c3a8bdaf35f2a2e5a706a1b6ef4293f7a98", .num 1, .str "aos_nmea_parser.h"]]],
    .arr [.str "nmea_5fparsing_5fres_5ft", .arr [.str "nmea_parsing_res_t", .arr [.str "../group__aos__nmea__parser.html#ga7c569df8093efb3d3445f178fd2907c3", .num 1, .str "aos_nmea_parser.h"]]],
    .arr [.str "nmea_5fsend", .arr [.str "nmea_send", .arr [.str "../group__aos__nmea__parser.html#ga95873eb7013f7a8557e1b22045db2440", .num 1, .str "aos_nmea_parser.h"]]],
    .arr [.str "nmea_5fset_5fconstellation", .arr [.str "nmea_set_constellation", .arr [.str "../group__aos__nmea__parser.html#gac9d246674d8c6bc721dd56ec99000d55", .num 1, .str "aos_nmea_parser.h"]]],
    .arr [.str "nmea_5fset_5fmsg_5fmask", .arr [.str "nmea_set_msg_mask", .arr [.str "../group__aos__nmea__parser.html#gababa1c7de4f4a56bbfa5e7dcaa1996cc", .num 1, .str "aos_nmea_parser.h"]]],
    .arr [.str "nmea_5ftype_5faccuracy", .arr [.str "nmea_type_accuracy", .arr [.str "../group__aos__nmea__parser.html#gga88d38de8a4cd82c9e76777ad92882e2ba7df7b9cb49911a84f508c3c6f849f813", .num 1, .str "aos_nmea_parser.h"]]],
    .arr [.str "nmea_5ftype_5fack", .arr [.str "nmea_type_ack", .arr [.str "../group__aos__nmea__parser.html#gga88d38de8a4cd82c9e76777ad92882e2ba5a30d5c290118f3b35945c05afae2c22", .num 1, .str "aos_nmea_parser.h"]]],
    .arr [.str "nmea_5ftype_5fgga", .arr [.str "nmea_type_gga", .arr [.str "../group__aos__nmea__parser.html#gga88d38de8a4cd82c9e76777ad92882e2ba52d4f4b90e56060d4e8cae524f706d1a", .num 1, .str "aos_nmea_parser.h"]]],
    .arr [.str "nmea_5ftype_5fgsa", .arr [.str "nmea_type_gsa", .arr [.str "../group__aos__nmea__parser.html#gga88d38de8a4cd82c9e76777ad92882e2baea15911f6b15a94d5c3592fced4a6be9", .num 1, .str "aos_nmea_parser.h"]]],
    .arr [.str "nmea_5ftype_5fgsv", .arr [.str "nmea_type_gsv", .arr [.str "../group__aos__nmea__parser.html#gga88d38de8a4cd82c9e76777ad92882e2ba5f9b6089baab5841c3a57bcd467a8857", .num 1, .str "aos_nmea_parser.h"]]],
    .arr [.str "nmea_5ftype_5fprn", .arr [.str "nmea_type_prn", .arr [.str "../group__aos__nmea__parser.html#gga88d38de8a4cd82c9e76777ad92882e2baf8dbb84295ebc81a2fc56296aab110b5", .num 1, .str "aos_nmea_parser.h"]]],
    .arr [.str "nmea_5ftype_5fprn_5fdone", .arr [.str "nmea_type_prn_done", .arr [.str "../group__aos__nmea__parser.html#gga88d38de8a4cd82c9e76777ad92882e2ba0c2753734cfb7c92db769795fb57ce8d", .num 1, .str "aos_nmea_parser.h"]]],
    .arr [.str "nmea_5ftype_5frmc", .arr [.str "nmea_type_rmc", .arr [.str "../group__aos__nmea__parser.html#gga88d38de8a4cd82c9e76777ad92882e2ba23d93f5ea38b7474fd8cc8f2b3b087ac", .num 1, .str "aos_nmea_parser.h"]]],
    .arr [.str "nmea_5ftype_5funknown", .arr [.str "nmea_type_unknown", .arr [.str "../group__aos__nmea__parser.html#gga88d38de8a4cd82c9e76777ad92882e2ba519119a4d7cb2aee43aa9fd626f423c0", .num 1, .str "aos_nmea_parser.h"]]],
    .arr [.str "nmea_5ftype_5fvendor", .arr [.str "nmea_type_vendor", .arr [.str "../group__aos__nmea__parser.html#gga88d38de8a4cd82c9e76777ad92882e2ba3b1d1783eda549b54fe93494cd2ab3d2", .num 1, .str "aos_nmea_parser.h"]]],
    .arr [.str "nmea_5ftype_5fvtg", .arr [.str "nmea_type_vtg", .arr [.str "../group__aos__nmea__parser.html#gga88d38de8a4cd82c9e76777ad92882e2baa8c2c7fa981707f67403b69d04f0ea4b", .num 1, .str "aos_nmea_parser.h"]]],
    .arr [.str "no", .arr [.str "NO", .arr [.str "../group__app__conf.html#ga996bde01ecac342918f0a2c4e7ce7bd5", .num 1, .str "app_conf.h"]]],
    .arr [.str "no_5fbuffer", .arr [.str "no_buffer", .arr [.str "../structaos__gnss__counters__t.html#a5413c1b5cc7072246acd8ebd45203a12", .num 1, .str "aos_gnss_counters_t"]]],
    .arr [.str "noise_5ferrors", .arr [.str "noise_errors", .arr [.str "../structaos__uart__stats__t.html#aeb92dd2fa751093ecd6587cc993d403a", .num 1, .str "aos_uart_stats_t"]]],
    .arr [.str "non_5fdigit_5fbytes", .arr [.str "non_digit_bytes", .arr [.str "../structaos__gnss__counters__t.html#aa12bb82592112db0364455db9c29e02a", .num 1, .str "aos_gnss_counters_t"]]],
    .arr [.str "num_5fattr_5frec", .arr [.str "num_attr_rec", .arr [.str "../structble__service__init__data__t.html#ac9e49220c8120f6faf8d54066149a266", .num 1, .str "ble_service_init_data_t"]]]
  ]

namespace JsValue

/-- Elements of an array value; a string or a number has none. -/
def elements : JsValue → List JsValue
  | arr xs => xs
  | _ => []

/-- Number of components of an array value, `none` for a value that is no array. -/
def arity? : JsValue → Option Nat
  | arr xs => some xs.length
  | _ => none

/-- Whether the value is an array. -/
def isArr : JsValue → Bool
  | arr _ => true
  | _ => false

/-- Destination entries of a record `r`, read the way the search script indexes them:
the elements of `r[1]` after its first one. -/
def destinations : JsValue → List JsValue
  | arr (_ :: arr (_ :: ds) :: _) => ds
  | _ => []

/-- Record shape the specification describes: `(key, label)` or
`(key, label, nested-array-of-destinations)`, key and label being strings. -/
def hasSpecShape : JsValue → Bool
  | arr [str _, str _] => true
  | arr [str _, str _, arr _] => true
  | _ => false

/-- Record shape the files use: `[key, [label, destination, ...]]` with every
destination an array. -/
def hasRecordShape : JsValue → Bool
  | arr [str _, arr (str _ :: ds)] => ds.all isArr
  | _ => false

/-- Destination shape the specification describes: three textual components
(anchor fragment, containing page or struct, destination URL). -/
def hasSpecDestinationShape : JsValue → Bool
  | arr [str _, str _, str _] => true
  | _ => false

/-- Destination shape the files use: `[url, n, scope]` with a string, a number and a string. -/
def hasDestinationShape : JsValue → Bool
  | arr [str _, num _, str _] => true
  | _ => false

end JsValue

/-- The three search-index files of the repository. -/
inductive SearchFile where
  | all_10
  | all_2
  | all_c
  deriving DecidableEq, Repr

/-- The value of `searchData` in each file. -/
def SearchFile.searchData : SearchFile → JsValue
  | .all_10 => all_10.searchData
  | .all_2 => all_2.searchData
  | .all_c => all_c.searchData

/-- A destination entry `[url, n, scope]` of a record. -/
structure Destination where
  url : String
  n : Nat
  scope : String
  deriving DecidableEq, Repr

/-- A search record `[key, [label, destination, ...]]`. -/
structure SearchRecord where
  key : String
  label : String
  dests : List Destination
  deriving DecidableEq, Repr

namespace JsValue

/-- Reads a destination entry `[url, n, scope]`. -/
def toDestination? : JsValue → Option Destination
  | arr [str url, num n, str scope] => some ⟨url, n, scope⟩
  | _ => none

/-- Reads a list of destination entries, failing when one of them is malformed. -/
def toDestinations? : List JsValue → Option (List Destination)
  | [] => some []
  | d :: ds =>
    match toDestination? d, toDestinations? ds with
    | some x, some xs => some (x :: xs)
    | _, _ => none

/-- Reads a record `[key, [label, destination, ...]]`: `r[0]` is the key, `r[1][0]` the
label and the rest of `r[1]` the destinations. -/
def toRecord? : JsValue → Option SearchRecord
  | arr [str key, arr (str label :: ds)] =>
    match toDestinations? ds with
    | some xs => some ⟨key, label, xs⟩
    | none => none
  | _ => none

end JsValue

/-- The destination entry written back as a JavaScript value. -/
def Destination.toJs (d : Destination) : JsValue :=
  .arr [.str d.url, .num d.n, .str d.scope]

/-- The record written back as a JavaScript value. -/
def SearchRecord.toJs (r : SearchRecord) : JsValue :=
  .arr [.str r.key, .arr (.str r.label :: r.dests.map Destination.toJs)]

/-- The records of a file, in source order. -/
def SearchFile.records (f : SearchFile) : List SearchRecord :=
  f.searchData.elements.filterMap JsValue.toRecord?

/-- The first character of the keys a file holds, the bucket the generator put them in. -/
def SearchFile.bucket : SearchFile → Char
  | .all_10 => 'r'
  | .all_2 => 'b'
  | .all_c => 'n'

/-- UTF-16 code units of a string, the units a JavaScript string is made of. -/
def codeUnits (s : String) : List Nat :=
  s.toList.flatMap fun c =>
    if c.toNat < 0x10000 then [c.toNat]
    else [0xD800 + (c.toNat - 0x10000) / 0x400, 0xDC00 + (c.toNat - 0x10000) % 0x400]

/-- Lexicographic comparison of two code-unit sequences, the comparison the JavaScript
operator `<` makes on strings. -/
def ltUnits : List Nat → List Nat → Bool
  | _, [] => false
  | [], _ :: _ => true
  | a :: as, b :: bs => decide (a < b) || (decide (a = b) && ltUnits as bs)

/-- Code-unit order on strings. -/
def keyLt (a b : String) : Prop := ltUnits (codeUnits a) (codeUnits b) = true

instance (a b : String) : Decidable (keyLt a b) :=
  inferInstanceAs (Decidable (ltUnits (codeUnits a) (codeUnits b) = true))

/-- Whether the sequence `p` occurs in `s` as a run of consecutive units. -/
def hasInfix (p : List Nat) : List Nat → Bool
  | [] => p.isPrefixOf []
  | c :: s => p.isPrefixOf (c :: s) || hasInfix p s

/-- Whether the key holds `_20`, the escape of a space, which marks the record of a
group title. -/
def isTitleKey (k : String) : Bool := hasInfix (codeUnits "_20") (codeUnits k)

/-- Whether a relation given as a test holds between every two neighbours of a list. -/
def adjacentAll (p : α → α → Bool) : List α → Bool
  | [] => true
  | [_] => true
  | a :: b :: rest => p a b && adjacentAll p (b :: rest)

/-- Splits a URL at its first `#`: the part before it and, when there is a `#`, the
fragment after it. -/
def splitHash : List Char → List Char × Option (List Char)
  | [] => ([], none)
  | c :: cs => if c = '#' then ([], some cs) else ((splitHash cs).1.cons c, (splitHash cs).2)

/-- Whether the text is `../<page>.html`. -/
def isPageUrl (b : List Char) : Bool :=
  "../".toList.isPrefixOf b && ".html".toList.isSuffixOf (b.drop 3)

/-- Whether a URL is `../<page>.html`, alone or followed by `#` and a non-empty anchor. -/
def hasUrlForm (u : String) : Bool :=
  match splitHash u.toList with
  | (b, none) => isPageUrl b
  | (b, some a) => isPageUrl b && !a.isEmpty

/-- The URL form the specification gives every destination: `../<page>.html#<anchor>` with a
non-empty anchor. -/
def HasAnchorUrlForm (u : String) : Prop :=
  ∃ page anchor : String, anchor ≠ "" ∧ u = "../" ++ page ++ ".html#" ++ anchor

namespace KeySpec

/-- Characters the escaping keeps: `a`-`z` and `0`-`9`. -/
def isPlain (c : Nat) : Bool := (97 ≤ c && c ≤ 122) || (48 ≤ c && c ≤ 57)

/-- Code unit of the lowercase hexadecimal digit of a value below 16. -/
def hexDigit (d : Nat) : Nat := if d < 10 then 48 + d else 87 + d

/-- Escape of one code unit: itself when plain, otherwise `_` and the two lowercase
hexadecimal digits of its code (of its low byte, for a code above 255). -/
def encodeUnit (c : Nat) : List Nat :=
  if isPlain c then [c] else [95, hexDigit (c / 16 % 16), hexDigit (c % 16)]

/-- The escaping `encode` of the key: every code unit replaced by its escape. -/
def encode (s : List Nat) : List Nat := s.flatMap encodeUnit

/-- Lower-casing of one code unit: `A`-`Z` become `a`-`z`. -/
def toLowerUnit (c : Nat) : Nat := if 65 ≤ c ∧ c ≤ 90 then c + 32 else c

/-- Lower-casing `toLower` of a label. -/
def toLower (s : List Nat) : List Nat := s.map toLowerUnit

/-- Value of a lowercase hexadecimal digit. -/
def hexValue? (c : Nat) : Option Nat :=
  if 48 ≤ c ∧ c ≤ 57 then some (c - 48)
  else if 97 ≤ c ∧ c ≤ 102 then some (c - 87)
  else none

/-- What the decoder has read of an escape: nothing, the `_`, or the `_` and the value
of the first hexadecimal digit. -/
inductive Pending where
  | none
  | underscore
  | digit (x : Nat)

/-- Decoding from a given state, one code unit at a time; it fails on an escape that is
cut short or has a unit that is no lowercase hexadecimal digit. -/
def decodeFrom : Pending → List Nat → Option (List Nat)
  | .none, [] => some []
  | .underscore, [] => Option.none
  | .digit _, [] => Option.none
  | .none, c :: rest =>
    if c = 95 then decodeFrom .underscore rest else (decodeFrom .none rest).map (c :: ·)
  | .underscore, c :: rest =>
    match hexValue? c with
    | some x => decodeFrom (.digit x) rest
    | Option.none => Option.none
  | .digit x, c :: rest =>
    match hexValue? c with
    | some y => (decodeFrom .none rest).map ((16 * x + y) :: ·)
    | Option.none => Option.none

/-- Decoding of a key: `_` and two hexadecimal digits give back the code unit they
stand for, every other unit stands for itself. -/
def decode (s : List Nat) : Option (List Nat) := decodeFrom .none s

end KeySpec

/-- Whether the key of a record is the escaped lower-cased label, and the label has
only codes below 256. -/
def SearchRecord.keyMatchesLabel (r : SearchRecord) : Bool :=
  decide (codeUnits r.key = KeySpec.encode (KeySpec.toLower (codeUnits r.label))) &&
    (KeySpec.toLower (codeUnits r.label)).all (fun c => decide (c < 256))


/-- Whether a destination entry has `n = 1`, a URL that starts with `../group__` or
`../struct`, an empty scope exactly when the URL has no `#`, and a URL that ends in
`.html` when it has no `#`. -/
def Destination.isWellFormed (d : Destination) : Bool :=
  decide (d.n = 1) &&
    ("../group__".toList.isPrefixOf d.url.toList || "../struct".toList.isPrefixOf d.url.toList) &&
    (d.scope.toList.isEmpty == !List.elem '#' d.url.toList) &&
    (List.elem '#' d.url.toList || ".html".toList.isSuffixOf d.url.toList)

/-- The text with every `_` replaced by `__`. -/
def doubleUnderscores (s : List Char) : List Char :=
  s.flatMap fun c => if c = '_' then ['_', '_'] else [c]

/-- The text up to, and not including, its first `::`; the whole text when it has none. -/
def beforeScopeSeparator : List Char → List Char
  | [] => []
  | [c] => [c]
  | c :: d :: rest =>
    if c = ':' ∧ d = ':' then [] else c :: beforeScopeSeparator (d :: rest)

/-- The struct a destination of a record with the given label belongs to: the scope up to
its first `::` when the scope is not empty, the label otherwise. -/
def Destination.container (d : Destination) (label : String) : List Char :=
  if d.scope.toList.isEmpty then label.toList else beforeScopeSeparator d.scope.toList

/-- The page URL of the struct with the given name: `../struct`, the name with its
underscores doubled, `.html`. -/
def structPageUrl (name : List Char) : List Char :=
  "../struct".toList ++ doubleUnderscores name ++ ".html".toList

/-- Whether a destination that links into a struct page links into the page of its
container; a destination that links elsewhere passes. -/
def Destination.matchesContainer (d : Destination) (label : String) : Bool :=
  !"../struct".toList.isPrefixOf d.url.toList ||
    decide ((splitHash d.url.toList).1 = structPageUrl (d.container label))

/-! Shape of the records -/

theorem hasRecordShape_elim (v : JsValue) (h : v.hasRecordShape = true) :
    ∃ key label dests, v = .arr [.str key, .arr (.str label :: dests)] ∧
      ∀ d ∈ dests, ∃ xs, d = JsValue.arr xs := by
  unfold JsValue.hasRecordShape at h
  split at h
  · rename_i k l ds
    refine ⟨k, l, ds, rfl, ?_⟩
    intro d hd
    have := List.all_eq_true.mp h d hd
    cases d <;> simp [JsValue.isArr] at this ⊢
  · simp at h

theorem hasDestinationShape_elim (v : JsValue) (h : v.hasDestinationShape = true) :
    ∃ url n scope, v = .arr [.str url, .num n, .str scope] := by
  unfold JsValue.hasDestinationShape at h
  split at h
  · rename_i u n s
    exact ⟨u, n, s, rfl⟩
  · simp at h

theorem all_hasRecordShape (f : SearchFile) :
    f.searchData.elements.all JsValue.hasRecordShape = true := by
  cases f <;> decide!

theorem all_arity_two (f : SearchFile) :
    f.searchData.elements.all (fun r => r.arity? == some 2) = true := by
  cases f <;> decide!

theorem all_destinations_nonempty (f : SearchFile) :
    f.searchData.elements.all (fun r => !r.destinations.isEmpty) = true := by
  cases f <;> decide!

theorem all_hasDestinationShape (f : SearchFile) :
    f.searchData.elements.all (fun r => r.destinations.all JsValue.hasDestinationShape) = true := by
  cases f <;> decide!

/-- C1 (as stated, refuted): the second record of `all_10.js` is `[key, [label, destination]]`;
its second component is an array, not the label string, so it has neither the shape
`(key, label)` nor `(key, label, destinations)`. -/
theorem c1_second_component_not_label :
    JsValue.arr [.str "r0", .arr [.str "r0",
        .arr [.str "../structaos__error__reg__info__t.html#ad6e2ca734dec787d95a0df3e92352667",
          .num 1, .str "aos_error_reg_info_t"]]]
      ∈ SearchFile.all_10.searchData.elements ∧
    (JsValue.arr [.str "r0", .arr [.str "r0",
        .arr [.str "../structaos__error__reg__info__t.html#ad6e2ca734dec787d95a0df3e92352667",
          .num 1, .str "aos_error_reg_info_t"]]]).hasSpecShape = false :=
  ⟨List.Mem.tail _ (List.Mem.head _), rfl⟩

/-- C1 (amended): every top-level element of `searchData` in the three files is a
two-component array whose first component is the key string and whose second component
is an array that starts with the display-label string and continues with the
destination entries, each of them an array. -/
theorem c1_record_shape (f : SearchFile) (r : JsValue) (hr : r ∈ f.searchData.elements) :
    ∃ key label dests, r = .arr [.str key, .arr (.str label :: dests)] ∧
      ∀ d ∈ dests, ∃ xs, d = JsValue.arr xs :=
  hasRecordShape_elim r (List.all_eq_true.mp (all_hasRecordShape f) r hr)

/-- The amended C1 at the first record of `all_10.js`. -/
theorem c1_record_shape_witness :
    JsValue.arr [.str "rf_20switch_20driver", .arr [.str "RF switch driver",
        .arr [.str "../group__aos__rf__switch.html", .num 1, .str ""]]]
      ∈ SearchFile.all_10.searchData.elements ∧
    ∃ key label dests,
      JsValue.arr [.str "rf_20switch_20driver", .arr [.str "RF switch driver",
        .arr [.str "../group__aos__rf__switch.html", .num 1, .str ""]]]
        = .arr [.str key, .arr (.str label :: dests)] ∧
      ∀ d ∈ dests, ∃ xs, d = JsValue.arr xs :=
  ⟨List.Mem.head _, c1_record_shape .all_10 _ (List.Mem.head _)⟩

/-- C2: there is one number, 2 or 3, that is the number of top-level components of
every record of `searchData` in each of the three files. -/
theorem c2_fixed_arity :
    ∃ n, (n = 2 ∨ n = 3) ∧
      ∀ f : SearchFile, ∀ r ∈ f.searchData.elements, r.arity? = some n := by
  refine ⟨2, Or.inl rfl, fun f r hr => ?_⟩
  simpa using List.all_eq_true.mp (all_arity_two f) r hr

/-- C3: every record of `searchData` in each of the three files carries at least one
destination entry. -/
theorem c3_destinations_nonempty (f : SearchFile) (r : JsValue)
    (hr : r ∈ f.searchData.elements) : r.destinations ≠ [] := by
  have h := List.all_eq_true.mp (all_destinations_nonempty f) r hr
  intro he
  simp [he] at h

/-- C3 at the first record of `all_c.js`. -/
theorem c3_destinations_nonempty_witness :
    JsValue.arr [.str "nmea_20parser", .arr [.str "NMEA parser",
        .arr [.str "../group__aos__nmea__parser.html", .num 1, .str ""]]]
      ∈ SearchFile.all_c.searchData.elements ∧
    (JsValue.arr [.str "nmea_20parser", .arr [.str "NMEA parser",
        .arr [.str "../group__aos__nmea__parser.html", .num 1, .str ""]]]).destinations ≠ [] :=
  ⟨List.Mem.head _, c3_destinations_nonempty .all_c _ (List.Mem.head _)⟩

/-- C4 (as stated, refuted): the destination entry of the first record of `all_10.js`
has a number as its second component, so its three components are not an anchor
fragment, a containing page or struct and a destination URL. -/
theorem c4_number_component :
    JsValue.arr [.str "rf_20switch_20driver", .arr [.str "RF switch driver",
        .arr [.str "../group__aos__rf__switch.html", .num 1, .str ""]]]
      ∈ SearchFile.all_10.searchData.elements ∧
    (JsValue.arr [.str "rf_20switch_20driver", .arr [.str "RF switch driver",
        .arr [.str "../group__aos__rf__switch.html", .num 1, .str ""]]]).destinations
      = [.arr [.str "../group__aos__rf__switch.html", .num 1, .str ""]] ∧
    (JsValue.arr [.str "../group__aos__rf__switch.html", .num 1, .str ""]).hasSpecDestinationShape
      = false :=
  ⟨List.Mem.head _, rfl, rfl⟩

/-- C4 (amended): every destination entry of every record in the three files is an
array of exactly three components: the destination URL string, a number and the scope
string. -/
theorem c4_destination_shape (f : SearchFile) (r : JsValue) (hr : r ∈ f.searchData.elements)
    (d : JsValue) (hd : d ∈ r.destinations) :
    ∃ url n scope, d = .arr [.str url, .num n, .str scope] :=
  hasDestinationShape_elim d
    (List.all_eq_true.mp (List.all_eq_true.mp (all_hasDestinationShape f) r hr) d hd)

/-- The amended C4 at the first record of `all_2.js`. -/
theorem c4_destination_shape_witness :
    JsValue.arr [.str "ble_20core_20common_20defines", .arr [.str "BLE core common defines",
        .arr [.str "../group__aos__ble__common.html", .num 1, .str ""]]]
      ∈ SearchFile.all_2.searchData.elements ∧
    ∃ url n scope,
      JsValue.arr [.str "../group__aos__ble__common.html", .num 1, .str ""]
        = .arr [.str url, .num n, .str scope] :=
  ⟨List.Mem.head _,
    c4_destination_shape .all_2
      (.arr [.str "ble_20core_20common_20defines", .arr [.str "BLE core common defines",
        .arr [.str "../group__aos__ble__common.html", .num 1, .str ""]]])
      (List.Mem.head _) _ (List.Mem.head _)⟩

/-! The records read as typed values -/

/-- Reading the records loses nothing: written back, they are the elements of the file. -/
theorem records_toJs (f : SearchFile) :
    f.records.map SearchRecord.toJs = f.searchData.elements := by
  cases f <;> rfl

/-- A neighbour test that passes gives a chain. -/
theorem adjacentAll_chain {α : Type} (p : α → α → Bool) :
    ∀ l : List α, adjacentAll p l = true → List.Chain' (fun a b => p a b = true) l
  | [], _ => List.chain'_nil
  | [_], _ => List.chain'_singleton _
  | a :: b :: rest, h => by
    simp only [adjacentAll, Bool.and_eq_true] at h
    exact List.chain'_cons.mpr ⟨h.1, adjacentAll_chain p (b :: rest) h.2⟩

theorem ltUnits_trans : ∀ x y z : List Nat,
    ltUnits x y = true → ltUnits y z = true → ltUnits x z = true
  | _, [], _, h, _ => by simp [ltUnits] at h
  | _, _ :: _, [], _, h => by simp [ltUnits] at h
  | [], _ :: _, _ :: _, _, _ => by simp [ltUnits]
  | a :: as, b :: bs, c :: cs, h1, h2 => by
    simp only [ltUnits, Bool.or_eq_true, Bool.and_eq_true, decide_eq_true_eq] at h1 h2 ⊢
    rcases h1 with h1 | ⟨h1, t1⟩
    · rcases h2 with h2 | ⟨h2, _⟩
      · exact Or.inl (by omega)
      · exact Or.inl (by omega)
    · rcases h2 with h2 | ⟨h2, t2⟩
      · exact Or.inl (by omega)
      · exact Or.inr ⟨by omega, ltUnits_trans as bs cs t1 t2⟩

/-- The comparison is the lexicographic order of the code-unit sequences. -/
theorem ltUnits_iff_lex : ∀ x y : List Nat, ltUnits x y = true ↔ List.Lex (· < ·) x y
  | _, [] => by simp [ltUnits]
  | [], _ :: _ => by simp [ltUnits, List.Lex.nil]
  | a :: as, b :: bs => by
    simp only [ltUnits, Bool.or_eq_true, Bool.and_eq_true, decide_eq_true_eq,
      ltUnits_iff_lex as bs]
    constructor
    · rintro (h | ⟨rfl, h⟩)
      · exact List.Lex.rel h
      · exact List.Lex.cons h
    · intro h
      cases h with
      | cons h => exact Or.inr ⟨rfl, h⟩
      | rel h => exact Or.inl h

theorem keyLt_trans (a b c : String) (h1 : keyLt a b) (h2 : keyLt b c) : keyLt a c :=
  ltUnits_trans _ _ _ h1 h2

/-- The test `hasInfix` decides whether `p` is a run of consecutive units of `s`. -/
theorem hasInfix_iff (p : List Nat) : ∀ s : List Nat, hasInfix p s = true ↔ p <:+: s
  | [] => by
    cases p <;> simp [hasInfix, List.isPrefixOf]
  | c :: s => by
    rw [hasInfix, Bool.or_eq_true, hasInfix_iff p s, List.infix_cons_iff,
      List.isPrefixOf_iff_prefix]

theorem splitHash_none : ∀ (u b : List Char), splitHash u = (b, none) → u = b
  | [], b, h => by simp [splitHash] at h; exact h.symm
  | c :: cs, b, h => by
    unfold splitHash at h
    split at h
    · simp at h
    · simp only [Prod.mk.injEq] at h
      rw [← h.1, List.cons_eq_cons]
      exact ⟨rfl, splitHash_none cs _ (Prod.ext rfl h.2)⟩

theorem splitHash_some : ∀ (u b a : List Char), splitHash u = (b, some a) → u = b ++ '#' :: a
  | [], b, a, h => by simp [splitHash] at h
  | c :: cs, b, a, h => by
    unfold splitHash at h
    split at h
    · rename_i hc
      simp only [Prod.mk.injEq, Option.some.injEq] at h
      rw [← h.1, ← h.2, hc]
      rfl
    · simp only [Prod.mk.injEq] at h
      rw [← h.1, List.cons_append, List.cons_eq_cons]
      exact ⟨rfl, splitHash_some cs _ a (Prod.ext rfl h.2)⟩

theorem isPageUrl_elim (b : List Char) (h : isPageUrl b = true) :
    ∃ page : List Char, b = "../".toList ++ page ++ ".html".toList := by
  simp only [isPageUrl, Bool.and_eq_true, List.isPrefixOf_iff_prefix,
    List.isSuffixOf_iff_suffix] at h
  obtain ⟨⟨t, ht⟩, ⟨page, hp⟩⟩ := h
  refine ⟨page, ?_⟩
  have h3 : b.drop 3 = t := by
    rw [← ht]
    rfl
  rw [h3] at hp
  rw [← ht, ← hp, List.append_assoc]

theorem hasUrlForm_elim (u : String) (h : hasUrlForm u = true) :
    ∃ page : String, u = "../" ++ page ++ ".html" ∨
      ∃ anchor : String, anchor ≠ "" ∧ u = "../" ++ page ++ ".html#" ++ anchor := by
  unfold hasUrlForm at h
  split at h
  · rename_i b hs
    obtain ⟨page, hp⟩ := isPageUrl_elim b h
    refine ⟨⟨page⟩, Or.inl ?_⟩
    apply String.ext
    rw [String.data_append, String.data_append]
    exact (splitHash_none _ _ hs).trans hp
  · rename_i b a hs
    simp only [Bool.and_eq_true, Bool.not_eq_true', List.isEmpty_eq_false] at h
    obtain ⟨page, hp⟩ := isPageUrl_elim b h.1
    refine ⟨⟨page⟩, Or.inr ⟨⟨a⟩, ?_, ?_⟩⟩
    · intro he
      exact h.2 (congrArg String.data he)
    · have e : u.data = b ++ '#' :: a := splitHash_some _ _ _ hs
      have e5 : ".html#".data = ".html".data ++ ['#'] := by decide
      apply String.ext
      rw [String.data_append, String.data_append, String.data_append, e, hp, e5]
      simp [String.toList]

namespace KeySpec

theorem hexValue_hexDigit (d : Nat) (h : d < 16) : hexValue? (hexDigit d) = some d := by
  interval_cases d <;> decide

/-- A space is escaped as `_20` and an underscore as `_5f`. -/
theorem encode_space_underscore :
    encode (codeUnits " ") = codeUnits "_20" ∧ encode (codeUnits "_") = codeUnits "_5f" := by
  decide

/-- Decoding undoes the escaping of a text whose codes are below 256. -/
theorem decode_encode : ∀ s : List Nat, (∀ c ∈ s, c < 256) → decode (encode s) = some s
  | [], _ => by simp [encode, decode, decodeFrom]
  | c :: s, h => by
    have ih : decode (encode s) = some s :=
      decode_encode s (fun x hx => h x (List.mem_cons_of_mem _ hx))
    have hc : c < 256 := h c (List.mem_cons_self _ _)
    have hcons : encode (c :: s) = encodeUnit c ++ encode s := by
      simp [encode]
    unfold decode at ih ⊢
    rw [hcons]
    unfold encodeUnit
    by_cases hp : isPlain c = true
    · have h95 : c ≠ 95 := by
        rintro rfl
        simp [isPlain] at hp
      simp [hp, decodeFrom, h95, ih]
    · have hv : 16 * (c / 16 % 16) + c % 16 = c := by omega
      simp [hp, decodeFrom, ih, hexValue_hexDigit _ (Nat.mod_lt _ (by decide : 0 < 16)), hv]

end KeySpec

/-! Evaluation of the checks on the three files -/

theorem all_bucket (f : SearchFile) :
    f.records.all (fun r => decide (r.key.toList.head? = some f.bucket)) = true := by
  cases f <;> decide!

theorem all_hasUrlForm (f : SearchFile) :
    f.records.all (fun r => r.dests.all fun d => hasUrlForm d.url) = true := by
  cases f <;> decide!

theorem adjacent_symbols (f : SearchFile) :
    adjacentAll (fun a b : SearchRecord =>
      isTitleKey a.key || isTitleKey b.key || decide (keyLt a.key b.key)) f.records = true := by
  cases f <;> decide!

theorem symbols_adjacent (f : SearchFile) :
    adjacentAll (fun a b : SearchRecord => decide (keyLt a.key b.key))
      (f.records.filter fun r => !isTitleKey r.key) = true := by
  cases f <;> decide!

theorem all_keyMatchesLabel (f : SearchFile) :
    f.records.all SearchRecord.keyMatchesLabel = true := by
  cases f <;> decide!

/-! Keys -/

/-- C5: in each of the three files no two records of `searchData` have the same search
key. -/
theorem c5_keys_unique (f : SearchFile) : (f.records.map SearchRecord.key).Nodup := by
  cases f <;> decide!

/-- C6: every search key of `all_10.js` begins with `r`, every search key of `all_2.js`
with `b` and every search key of `all_c.js` with `n`; hence records of two different
files never have the same key. -/
theorem c6_bucket_letter :
    (∀ r ∈ SearchFile.all_10.records, r.key.toList.head? = some 'r') ∧
    (∀ r ∈ SearchFile.all_2.records, r.key.toList.head? = some 'b') ∧
    (∀ r ∈ SearchFile.all_c.records, r.key.toList.head? = some 'n') ∧
    (∀ f g : SearchFile, f ≠ g → ∀ r ∈ f.records, ∀ s ∈ g.records, r.key ≠ s.key) := by
  have hb : ∀ f : SearchFile, ∀ r ∈ f.records, r.key.toList.head? = some f.bucket :=
    fun f r hr => of_decide_eq_true (List.all_eq_true.mp (all_bucket f) r hr)
  refine ⟨hb .all_10, hb .all_2, hb .all_c, ?_⟩
  intro f g hfg r hr s hs he
  have h1 := hb f r hr
  have h2 := hb g s hs
  rw [he, h2] at h1
  apply hfg
  revert h1
  cases f <;> cases g <;> decide

/-! Destination URLs -/

/-- C7 (as stated, refuted): the destination of the first record of `all_2.js` is the
page `../group__aos__ble__common.html`, which has no `#` and so is not of the form
`../<page>.html#<anchor>`. -/
theorem c7_page_url_without_anchor :
    (∃ r ∈ SearchFile.all_2.records, ∃ d ∈ r.dests,
      d.url = "../group__aos__ble__common.html") ∧
    ¬ HasAnchorUrlForm "../group__aos__ble__common.html" := by
  refine ⟨⟨_, List.Mem.head _, _, List.Mem.head _, rfl⟩, ?_⟩
  rintro ⟨page, anchor, _, h⟩
  have hm : '#' ∈ ("../" ++ page ++ ".html#" ++ anchor).data := by
    simp only [String.data_append, List.mem_append]
    exact Or.inl (Or.inr (by decide))
  rw [← h] at hm
  revert hm
  decide

/-- C7 (amended): every destination URL of every record in the three files is
`../<page>.html`, either alone (a link to a whole page) or followed by `#` and a
non-empty anchor fragment. -/
theorem c7_url_form (f : SearchFile) (r : SearchRecord) (hr : r ∈ f.records)
    (d : Destination) (hd : d ∈ r.dests) :
    ∃ page : String, d.url = "../" ++ page ++ ".html" ∨
      ∃ anchor : String, anchor ≠ "" ∧ d.url = "../" ++ page ++ ".html#" ++ anchor :=
  hasUrlForm_elim d.url
    (List.all_eq_true.mp (List.all_eq_true.mp (all_hasUrlForm f) r hr) d hd)

/-- The amended C7 at the record `r0` of `all_10.js`. -/
theorem c7_url_form_witness :
    (⟨"r0", "r0", [⟨"../structaos__error__reg__info__t.html#ad6e2ca734dec787d95a0df3e92352667",
      1, "aos_error_reg_info_t"⟩]⟩ : SearchRecord) ∈ SearchFile.all_10.records ∧
    ∃ page : String,
      "../structaos__error__reg__info__t.html#ad6e2ca734dec787d95a0df3e92352667"
        = "../" ++ page ++ ".html" ∨
      ∃ anchor : String, anchor ≠ "" ∧
        "../structaos__error__reg__info__t.html#ad6e2ca734dec787d95a0df3e92352667"
          = "../" ++ page ++ ".html#" ++ anchor :=
  ⟨List.Mem.tail _ (List.Mem.head _),
    c7_url_form .all_10
      ⟨"r0", "r0", [⟨"../structaos__error__reg__info__t.html#ad6e2ca734dec787d95a0df3e92352667",
        1, "aos_error_reg_info_t"⟩]⟩
      (List.Mem.tail _ (List.Mem.head _))
      ⟨"../structaos__error__reg__info__t.html#ad6e2ca734dec787d95a0df3e92352667",
        1, "aos_error_reg_info_t"⟩
      (List.Mem.head _)⟩

/-! Order of the records -/

/-- C8 (as stated, refuted): `all_10.js` starts with the key `rf_20switch_20driver`
followed by the key `r0`, and the first is not below the second in code-unit order. -/
theorem c8_first_pair_descending :
    ∃ a b rest, SearchFile.all_10.records = a :: b :: rest ∧
      a.key = "rf_20switch_20driver" ∧ b.key = "r0" ∧ ¬ keyLt a.key b.key :=
  ⟨_, _, _, rfl, rfl, rfl, by decide⟩

/-- C8 (amended): in each of the three files, for every pair of adjacent records neither
of whose keys contains `_20`, the earlier key is strictly less than the later key in
code-unit order. -/
theorem c8_adjacent_symbols_ascending (f : SearchFile) :
    List.Chain' (fun a b : SearchRecord =>
      isTitleKey a.key = false → isTitleKey b.key = false → keyLt a.key b.key) f.records := by
  refine (adjacentAll_chain _ _ (adjacent_symbols f)).imp ?_
  intro a b h ha hb
  simpa [ha, hb] using h

/-- C9: for every record in the three files the search key is `encode (toLower label)`,
and decoding the key gives back the lower-cased label. -/
theorem c9_key_is_escaped_label (f : SearchFile) (r : SearchRecord) (hr : r ∈ f.records) :
    codeUnits r.key = KeySpec.encode (KeySpec.toLower (codeUnits r.label)) ∧
    KeySpec.decode (codeUnits r.key) = some (KeySpec.toLower (codeUnits r.label)) := by
  have h := List.all_eq_true.mp (all_keyMatchesLabel f) r hr
  simp only [SearchRecord.keyMatchesLabel, Bool.and_eq_true, decide_eq_true_eq,
    List.all_eq_true] at h
  refine ⟨h.1, ?_⟩
  rw [h.1]
  exact KeySpec.decode_encode _ h.2

/-- C9 at the first record of `all_c.js`. -/
theorem c9_key_is_escaped_label_witness :
    (⟨"nmea_20parser", "NMEA parser", [⟨"../group__aos__nmea__parser.html", 1, ""⟩]⟩ :
      SearchRecord) ∈ SearchFile.all_c.records ∧
    codeUnits "nmea_20parser" = KeySpec.encode (KeySpec.toLower (codeUnits "NMEA parser")) ∧
    KeySpec.decode (codeUnits "nmea_20parser") = some (KeySpec.toLower (codeUnits "NMEA parser")) :=
  ⟨List.Mem.head _,
    c9_key_is_escaped_label .all_c
      ⟨"nmea_20parser", "NMEA parser", [⟨"../group__aos__nmea__parser.html", 1, ""⟩]⟩
      (List.Mem.head _)⟩

/-- C10: in each of the three files the records whose search key does not contain `_20`,
taken in file order, have strictly ascending search keys in code-unit order. -/
theorem c10_symbols_ascending (f : SearchFile) :
    List.Pairwise (fun a b : SearchRecord => keyLt a.key b.key)
      (f.records.filter fun r => !isTitleKey r.key) := by
  haveI : IsTrans SearchRecord (fun a b => keyLt a.key b.key) :=
    ⟨fun a b c => keyLt_trans a.key b.key c.key⟩
  refine List.chain'_iff_pairwise.mp ((adjacentAll_chain _ _ (symbols_adjacent f)).imp ?_)
  intro a b h
  exact of_decide_eq_true h

/-! Destination entries -/

theorem all_isWellFormed (f : SearchFile) :
    f.records.all (fun r => r.dests.all Destination.isWellFormed) = true := by
  cases f <;> decide!

theorem all_matchesContainer (f : SearchFile) :
    f.records.all (fun r => r.dests.all fun d => d.matchesContainer r.label) = true := by
  cases f <;> decide!

theorem isWellFormed_elim (d : Destination) (h : d.isWellFormed = true) :
    d.n = 1 ∧
    ("../group__".toList <+: d.url.toList ∨ "../struct".toList <+: d.url.toList) ∧
    (d.scope = "" ↔ '#' ∉ d.url.toList) ∧
    ('#' ∉ d.url.toList → ".html".toList <:+ d.url.toList) := by
  simp only [Destination.isWellFormed, Bool.and_eq_true, Bool.or_eq_true, decide_eq_true_eq,
    List.isPrefixOf_iff_prefix, List.isSuffixOf_iff_suffix, List.elem_iff,
    beq_iff_eq] at h
  obtain ⟨⟨⟨hn, hp⟩, hs⟩, hh⟩ := h
  refine ⟨hn, hp, ?_, ?_⟩
  · have he : d.scope = "" ↔ d.scope.toList.isEmpty = true := by
      rw [List.isEmpty_iff]
      constructor
      · intro e
        rw [e]
        rfl
      · intro e
        exact String.ext e
    rw [he, hs]
    simp
  · intro hno
    rcases hh with hh | hh
    · exact absurd hh hno
    · exact hh

theorem matchesContainer_elim (d : Destination) (label : String)
    (h : d.matchesContainer label = true) (hs : "../struct".toList <+: d.url.toList) :
    (splitHash d.url.toList).1
      = "../struct".toList ++ doubleUnderscores (d.container label) ++ ".html".toList := by
  simp only [Destination.matchesContainer, Bool.or_eq_true, Bool.not_eq_true',
    decide_eq_true_eq] at h
  rcases h with h | h
  · rw [List.isPrefixOf_iff_prefix.mpr hs] at h
    exact absurd h (by decide)
  · exact h

/-- The scope `aos_gnss_request_info_t::raw()` names the struct `aos_gnss_request_info_t`,
whose page is `../structaos__gnss__request__info__t.html`. -/
theorem structPageUrl_example :
    beforeScopeSeparator "aos_gnss_request_info_t::raw()".toList
      = "aos_gnss_request_info_t".toList ∧
    structPageUrl "aos_gnss_request_info_t".toList
      = "../structaos__gnss__request__info__t.html".toList := by
  decide

/-- C11: for every destination entry `[url, n, scope]` of every record in the three files,
`n` is 1, `url` starts with `../group__` or `../struct`, and the scope is empty if and only
if `url` has no `#`, in which case `url` ends in `.html`. -/
theorem c11_destination_entries (f : SearchFile) (r : SearchRecord) (hr : r ∈ f.records)
    (d : Destination) (hd : d ∈ r.dests) :
    d.n = 1 ∧
    ("../group__".toList <+: d.url.toList ∨ "../struct".toList <+: d.url.toList) ∧
    (d.scope = "" ↔ '#' ∉ d.url.toList) ∧
    ('#' ∉ d.url.toList → ".html".toList <:+ d.url.toList) :=
  isWellFormed_elim d
    (List.all_eq_true.mp (List.all_eq_true.mp (all_isWellFormed f) r hr) d hd)

/-- C11 at the first record of `all_10.js`, which links to a whole group page. -/
theorem c11_destination_entries_witness :
    (⟨"rf_20switch_20driver", "RF switch driver",
      [⟨"../group__aos__rf__switch.html", 1, ""⟩]⟩ : SearchRecord)
      ∈ SearchFile.all_10.records ∧
    (1 = 1 ∧
      ("../group__".toList <+: "../group__aos__rf__switch.html".toList ∨
        "../struct".toList <+: "../group__aos__rf__switch.html".toList) ∧
      (("" : String) = "" ↔ '#' ∉ "../group__aos__rf__switch.html".toList) ∧
      ('#' ∉ "../group__aos__rf__switch.html".toList →
        ".html".toList <:+ "../group__aos__rf__switch.html".toList)) :=
  ⟨List.Mem.head _,
    c11_destination_entries .all_10
      ⟨"rf_20switch_20driver", "RF switch driver", [⟨"../group__aos__rf__switch.html", 1, ""⟩]⟩
      (List.Mem.head _)
      ⟨"../group__aos__rf__switch.html", 1, ""⟩
      (List.Mem.head _)⟩

/-- C12: for every destination entry, in any of the three files, whose URL starts with
`../struct`, the URL without its `#` fragment is `../struct`, followed by the container
with every `_` doubled, followed by `.html`; the container is the scope up to its first
`::` when the scope is not empty and the display label of the record otherwise. -/
theorem c12_struct_link_names_container (f : SearchFile) (r : SearchRecord)
    (hr : r ∈ f.records) (d : Destination) (hd : d ∈ r.dests)
    (hs : "../struct".toList <+: d.url.toList) :
    (splitHash d.url.toList).1
      = "../struct".toList ++ doubleUnderscores (d.container r.label) ++ ".html".toList :=
  matchesContainer_elim d r.label
    (List.all_eq_true.mp (List.all_eq_true.mp (all_matchesContainer f) r hr) d hd) hs

/-- C12 at the record `raw` of `all_10.js`, whose first destination has the scope
`aos_gnss_request_info_t::raw()`. -/
theorem c12_struct_link_names_container_witness :
    (⟨"raw", "raw",
      [⟨"../structaos__gnss__request__info__t.html#a15f157b8d83d41c842be56832f634624", 1,
          "aos_gnss_request_info_t::raw()"⟩,
        ⟨"../structaos__gnss__event__info__t.html#a0eb003eb6791d8f5e9d0cec4a2feabe3", 1,
          "aos_gnss_event_info_t::raw()"⟩]⟩ : SearchRecord) ∈ SearchFile.all_10.records ∧
    "../struct".toList
      <+: "../structaos__gnss__request__info__t.html#a15f157b8d83d41c842be56832f634624".toList ∧
    (splitHash
        "../structaos__gnss__request__info__t.html#a15f157b8d83d41c842be56832f634624".toList).1
      = "../struct".toList ++ doubleUnderscores "aos_gnss_request_info_t".toList
          ++ ".html".toList :=
  ⟨List.Mem.tail _ (List.Mem.tail _ (List.Mem.tail _ (List.Mem.tail _ (List.Mem.tail _
      (List.Mem.tail _ (List.Mem.head _)))))),
    by decide,
    c12_struct_link_names_container .all_10
      ⟨"raw", "raw",
        [⟨"../structaos__gnss__request__info__t.html#a15f157b8d83d41c842be56832f634624", 1,
            "aos_gnss_request_info_t::raw()"⟩,
          ⟨"../structaos__gnss__event__info__t.html#a0eb003eb6791d8f5e9d0cec4a2feabe3", 1,
            "aos_gnss_event_info_t::raw()"⟩]⟩
      (List.Mem.tail _ (List.Mem.tail _ (List.Mem.tail _ (List.Mem.tail _ (List.Mem.tail _
        (List.Mem.tail _ (List.Mem.head _)))))))
      ⟨"../structaos__gnss__request__info__t.html#a15f157b8d83d41c842be56832f634624", 1,
        "aos_gnss_request_info_t::raw()"⟩
      (List.Mem.head _)
      (by decide)⟩
